import Mathlib

/-!
Verification of the extraction / rotation core of the `plugwise_pi`
repository (`src/plugwise_collector.py`, `src/daily_meter_collector.py`).

The Python code is shallowly embedded: XML documents are represented as
already-parsed trees (one structure per element shape the code reads),
Python `dict`s as insertion-ordered association lists, Python `float`
values as rationals, and Python exceptions as `Option`/`Except` results.
Filesystem effects are modelled by an explicit file store mapping file
names to lists of CSV rows.
-/

namespace Plugwise

/-! ## Python string / number primitives -/

/-- Model of Python `str.isdigit()` for ASCII text: the string is nonempty
and every character is a decimal digit. -/
def pyIsDigit (s : String) : Bool :=
  !s.isEmpty && s.toList.all Char.isDigit

/-- Model of `s.replace('.', '').replace('-', '')` from the Stretch
extractors (`plugwise_collector.py` line 196, `daily_meter_collector.py`
line 162): deleting every occurrence of the two single-character patterns
is filtering both characters out. -/
def stripDotsDashes (s : String) : String :=
  String.mk (s.toList.filter (fun c => c ≠ '.' && c ≠ '-'))

/-- Unchecked decimal value of a digit list (helper for `pyFloat?`). -/
def natVal (cs : List Char) : Nat :=
  cs.foldl (fun n c => n * 10 + (c.toNat - 48)) 0

/-- Model of Python `float(s)` on plain decimal strings: an optional sign
followed by digits with at most one decimal point and at least one digit.
`none` models `float` raising `ValueError`.  (Exponents, `inf`/`nan`,
underscores and surrounding whitespace are outside the model; no claim
depends on them.) -/
def pyFloat? (s : String) : Option ℚ :=
  let cs := s.toList
  let p : ℚ × List Char :=
    match cs with
    | '-' :: t => (-1, t)
    | '+' :: t => (1, t)
    | t => (1, t)
  match (p.2).splitOn '.' with
  | [w] =>
      if !w.isEmpty && w.all Char.isDigit then some (p.1 * (natVal w : ℚ)) else none
  | [w, f] =>
      if !(w ++ f).isEmpty && (w ++ f).all Char.isDigit then
        some (p.1 * ((natVal (w ++ f) : ℚ) / (10 : ℚ) ^ f.length))
      else none
  | _ => none

/-- Model of Python `str.strip()` (leading/trailing whitespace removal). -/
def pyStrip (s : String) : String :=
  String.mk
    (((s.toList.dropWhile Char.isWhitespace).reverse.dropWhile Char.isWhitespace).reverse)

/-! ## Python dict model

Python `dict`s are modelled as insertion-ordered association lists:
assigning to an existing key replaces its value in place, assigning to a
fresh key appends. -/

/-- `d[k] = v` on a Python dict. -/
def dictInsert {α : Type} (k : String) (v : α) : List (String × α) → List (String × α)
  | [] => [(k, v)]
  | (k', v') :: t => if k' = k then (k, v) :: t else (k', v') :: dictInsert k v t

/-- `d.get(k)` / `k in d` on a Python dict. -/
def dictGet? {α : Type} (k : String) : List (String × α) → Option α
  | [] => none
  | e :: t => if e.1 = k then some e.2 else dictGet? k t

/-- `del d[k]` (used to model `os.rename` removing the old name).  Dicts
built by `dictInsert` have unique keys, so removing every occurrence
agrees with removing the one binding. -/
def dictRemove {α : Type} (k : String) : List (String × α) → List (String × α)
  | [] => []
  | e :: t => if e.1 = k then dictRemove k t else e :: dictRemove k t

/-! ## XML document model

Documents are represented already parsed, one structure per element shape
the collectors read.  An XML attribute read with `elem.get(name, default)`
is a plain `String`; one read with `elem.get(name)` is an
`Option String`; element text is an `Option String` (`None` when the
element is empty). -/

/-- A `<measurement>` element as read by the extractors. -/
structure Measurement where
  text : Option String
  directionality : String := ""      -- `measurement.get('directionality', '')`
  tariff : String := ""              -- `measurement.get('tariff', '')`
  log_date : Option String := none   -- `measurement.get('log_date')` / `(…, '')`
deriving Repr, DecidableEq

/-- A service element nested under an appliance's `<services>`. -/
structure Service where
  tag : String
  id : String                        -- `service.get('id', '')`
deriving Repr, DecidableEq

/-- An `<appliance>` element of the Stretch appliance registry.
`name` is the text of the `<name>` child: `none` when the element is
missing, `some t` its (possibly empty) text. -/
structure Appliance where
  id : String                        -- `appliance.get('id', '')`
  name : Option String
  services : List Service
deriving Repr, DecidableEq

/-- An `<electricity_point_meter>` element of the Stretch modules tree. -/
structure PointMeter where
  id : String                        -- `point_meter.get('id', '')`
  measurements : List Measurement
deriving Repr, DecidableEq

/-- A `<module>` element of the Stretch modules tree. -/
structure StretchModule where
  id : String                        -- `module.get('id', '')`
  pointMeters : List PointMeter
deriving Repr, DecidableEq

/-- A Smile `<point_log>` or `<cumulative_log>` element.  `typeEl` and
`unitEl` are two-level: the outer `Option` is element presence
(`log.find('type')`), the inner one the element's text. -/
structure SmileLog where
  typeEl : Option (Option String)
  unitEl : Option (Option String)
  period : Option (List Measurement)
deriving Repr, DecidableEq

/-- A `<location>` element of the Smile domain-objects tree. -/
structure Location where
  id : String
  pointLogs : List SmileLog
  cumulativeLogs : List SmileLog
deriving Repr, DecidableEq

/-- The fixed home-location identifier both Smile extractors look up. -/
def homeLocationId : String := "9ae235b74cf64a189acaccd033a1f59f"

/-- `root.find(".//location[@id='9ae…f59f']")`. -/
def findHomeLocation (doc : List Location) : Option Location :=
  doc.find? (fun l => l.id = homeLocationId)

/-! ## Appliance mapper
(`PlugwiseCollector.build_appliance_mapping`, lines 99–134, and the
line-identical `DailyMeterCollector.build_appliance_mapping`.) -/

/-- Value stored in the appliance mapping for one point-meter service. -/
structure ApplianceInfo where
  appliance_name : String
  appliance_id : String
  service_type : String
deriving Repr, DecidableEq

/-- `name_elem.text.strip() if name_elem is not None and name_elem.text
else 'Unknown'`. -/
def applianceName : Option String → String
  | none => "Unknown"
  | some t => if t = "" then "Unknown" else pyStrip t

/-- The loop body of `build_appliance_mapping` on an already-fetched,
already-parsed appliance registry.  (Fetch failure yields `{}` before
this loop; a parse error cannot occur past `ET.fromstring`, which is
modelled by taking the parsed tree as input.) -/
def build_appliance_mapping (doc : List Appliance) : List (String × ApplianceInfo) :=
  doc.foldl
    (fun m a =>
      a.services.foldl
        (fun m s =>
          if s.tag = "electricity_point_meter" then
            dictInsert s.id ⟨applianceName a.name, a.id, s.tag⟩ m
          else m)
        m)
    []

/-! ## Stretch power extractor
(`PlugwiseCollector.extract_stretch_power`, lines 161–206.) -/

/-- One value of the `power_data` dict built by `extract_stretch_power`. -/
structure StretchReading where
  power_watts : ℚ
  timestamp : String
  module_id : String
  meter_id : String
deriving Repr, DecidableEq

/-- `float(power_value) if power_value.replace('.', '').replace('-', '')
.isdigit() else 0.0` — `none` models the uncaught-at-this-point
`ValueError` when the guard passes but `float` rejects the text. -/
def stretchParsePower (s : String) : Option ℚ :=
  if pyIsDigit (stripDotsDashes s) then pyFloat? s else some 0

/-- `measurement.text.strip() if measurement.text else '0'`. -/
def stretchPowerText (t : Option String) : String :=
  match t with
  | none => "0"
  | some s => if s = "" then "0" else pyStrip s

/-- Processing of one point meter: resolve through the mapping, take the
first measurement with `directionality == 'consumed'`, parse its text.
`none` models a raised `ValueError`. -/
def processPointMeter (mapping : List (String × ApplianceInfo)) (module_id : String)
    (acc : List (String × StretchReading)) (pm : PointMeter) :
    Option (List (String × StretchReading)) :=
  match dictGet? pm.id mapping with
  | none => some acc
  | some info =>
      match pm.measurements.find? (fun m => m.directionality = "consumed") with
      | none => some acc
      | some m =>
          match stretchParsePower (stretchPowerText m.text) with
          | none => none
          | some v =>
              some (dictInsert info.appliance_name
                ⟨v, m.log_date.getD "", module_id, pm.id⟩ acc)

/-- The point-meter loop of one module; `Except` carries the partial dict
out of a raised exception. -/
def stretchMeters (mapping : List (String × ApplianceInfo)) (module_id : String) :
    List (String × StretchReading) → List PointMeter →
    Except (List (String × StretchReading)) (List (String × StretchReading))
  | acc, [] => .ok acc
  | acc, pm :: rest =>
      match processPointMeter mapping module_id acc pm with
      | none => .error acc
      | some acc' => stretchMeters mapping module_id acc' rest

/-- The module loop of `extract_stretch_power`.  The `try` block wraps the
whole loop, and the `except` handler falls through to `return power_data`,
so a raised exception stops all further processing and the partial dict is
returned. -/
def stretchModulesLoop (mapping : List (String × ApplianceInfo)) :
    List (String × StretchReading) → List StretchModule → List (String × StretchReading)
  | acc, [] => acc
  | acc, md :: rest =>
      match stretchMeters mapping md.id acc md.pointMeters with
      | .error pd => pd
      | .ok acc' => stretchModulesLoop mapping acc' rest

/-- `extract_stretch_power` on an already-fetched, already-parsed modules
tree (fetch failure returns `None` before this code runs). -/
def extract_stretch_power (mapping : List (String × ApplianceInfo))
    (modules : List StretchModule) : List (String × StretchReading) :=
  stretchModulesLoop mapping [] modules

/-! ## Smile power extractor
(`PlugwiseCollector.extract_smile_power`, lines 208–320.)  All of the
body sits in one `try`; any raised exception makes the function return
`None`, which the embedding models by `Option` with failure propagation. -/

/-- Mutable locals of the point-log scan (lines 224–228). -/
structure PPAcc where
  current_power : ℚ := 0
  current_timestamp : Option String := none
  peak_power : ℚ := 0
  offpeak_power : ℚ := 0
  active_tariff : Option String := none
deriving Repr, DecidableEq

/-- One measurement of the first matching point log (lines 238–250);
`none` models `float(measurement.text)` raising. -/
def processPointMeasurement (acc : PPAcc) (m : Measurement) : Option PPAcc :=
  match m.text with
  | none => some acc
  | some txt =>
      match pyFloat? txt with
      | none => none
      | some v =>
          let acc := if m.tariff = "nl_peak" then { acc with peak_power := v }
                     else if m.tariff = "nl_offpeak" then { acc with offpeak_power := v }
                     else acc
          let acc := { acc with current_power := acc.current_power + v }
          some (if acc.current_timestamp = none
                then { acc with current_timestamp := m.log_date } else acc)

/-- Lines 252–260: derive the active tariff after the period scan. -/
def determineTariff (acc : PPAcc) : PPAcc :=
  if acc.peak_power > 0 ∧ acc.offpeak_power = 0 then
    { acc with active_tariff := some "peak" }
  else if acc.offpeak_power > 0 ∧ acc.peak_power = 0 then
    { acc with active_tariff := some "off-peak" }
  else if acc.peak_power > 0 ∧ acc.offpeak_power > 0 then
    { acc with active_tariff := some "both" }
  else
    { acc with active_tariff := some "none" }

/-- The `point_log` loop (lines 230–261).  The `break` sits inside
`if period is not None`, so a matching log without a period does not stop
the scan. -/
def runPointLogs (acc : PPAcc) : List SmileLog → Option PPAcc
  | [] => some acc
  | log :: rest =>
      if log.typeEl = some (some "electricity_consumed") then
        if log.unitEl = some (some "W") then
          match log.period with
          | none => runPointLogs acc rest
          | some ms =>
              match ms.foldlM processPointMeasurement acc with
              | none => none
              | some acc' => some (determineTariff acc')
        else runPointLogs acc rest
      else runPointLogs acc rest

/-- The `meter_data` dict of `extract_smile_power` (lines 264–295). -/
structure PMAcc where
  usage_high : Option ℚ := none
  usage_low : Option ℚ := none
  production_high : Option ℚ := none
  production_low : Option ℚ := none
  gas : Option ℚ := none
deriving Repr, DecidableEq

/-- Routing of one cumulative measurement by `(type, tariff)` in
`extract_smile_power` (lines 283–295). -/
def routePowerMeter (t : Option String) (tariff : String) (v : ℚ) (acc : PMAcc) : PMAcc :=
  if t = some "electricity_consumed" then
    if tariff = "nl_peak" then { acc with usage_high := some v }
    else if tariff = "nl_offpeak" then { acc with usage_low := some v }
    else acc
  else if t = some "electricity_produced" then
    if tariff = "nl_peak" then { acc with production_high := some v }
    else if tariff = "nl_offpeak" then { acc with production_low := some v }
    else acc
  else if t = some "gas_consumed" then { acc with gas := some v }
  else acc

/-- One cumulative log of `extract_smile_power` (lines 266–295). -/
def processPowerCumLog (acc : PMAcc) (log : SmileLog) : Option PMAcc :=
  match log.typeEl, log.unitEl with
  | some t, some _u =>
      match log.period with
      | none => some acc
      | some ms =>
          ms.foldlM
            (fun acc m =>
              match m.text with
              | none => some acc
              | some txt =>
                  match pyFloat? txt with
                  | none => none
                  | some v => some (routePowerMeter t m.tariff v acc))
            acc
  | _, _ => some acc

/-- Lines 297–304: net consumption requires both tariff values on each
side before adding or subtracting that side. -/
def netConsumption (acc : PMAcc) : ℚ :=
  (if acc.usage_high.isSome ∧ acc.usage_low.isSome then
     acc.usage_high.getD 0 + acc.usage_low.getD 0 else 0) -
  (if acc.production_high.isSome ∧ acc.production_low.isSome then
     acc.production_high.getD 0 + acc.production_low.getD 0 else 0)

/-- The `current_power` part of the structured return value. -/
structure CurrentPower where
  total_watts : ℚ
  peak_watts : ℚ
  offpeak_watts : ℚ
  active_tariff : Option String
  timestamp : Option String
deriving Repr, DecidableEq

/-- The `meter_data` part of the structured return value. -/
structure PowerMeterData where
  usage_high : Option ℚ
  usage_low : Option ℚ
  production_high : Option ℚ
  production_low : Option ℚ
  gas : Option ℚ
  net_consumption : ℚ
deriving Repr, DecidableEq

/-- The structured return value of `extract_smile_power` (lines 307–316). -/
structure SmilePowerResult where
  current_power : CurrentPower
  meter_data : PowerMeterData
deriving Repr, DecidableEq

/-- `extract_smile_power` on an already-fetched, already-parsed
domain-objects tree. -/
def extract_smile_power (doc : List Location) : Option SmilePowerResult :=
  match findHomeLocation doc with
  | none => none
  | some loc =>
      match runPointLogs {} loc.pointLogs with
      | none => none
      | some pp =>
          match loc.cumulativeLogs.foldlM processPowerCumLog {} with
          | none => none
          | some pm =>
              some ⟨⟨pp.current_power, pp.peak_power, pp.offpeak_power,
                     pp.active_tariff, pp.current_timestamp⟩,
                    ⟨pm.usage_high, pm.usage_low, pm.production_high,
                     pm.production_low, pm.gas, netConsumption pm⟩⟩

/-! ## Smile meter-data extractor
(`PlugwiseCollector.extract_smile_meter_data`, lines 322–443, and the
line-identical `DailyMeterCollector.extract_smile_meter_data`,
lines 175–296.) -/

/-- One value of the `meter_data` dict: `{value, unit, timestamp, type,
tariff}`. -/
structure MeterEntry where
  value : ℚ
  unit : String
  timestamp : String
  type : String
  tariff : String
deriving Repr, DecidableEq

/-- The `meter_data` dict while the cumulative-log loop runs (its keys
are drawn from a fixed set, so it is represented by optional fields). -/
structure MeterAcc where
  electricity_consumed_peak : Option MeterEntry := none
  electricity_consumed_offpeak : Option MeterEntry := none
  electricity_produced_peak : Option MeterEntry := none
  electricity_produced_offpeak : Option MeterEntry := none
  gas_consumed : Option MeterEntry := none
deriving Repr, DecidableEq

/-- Routing of one cumulative measurement by `(type, tariff)`
(lines 358–400). -/
def routeMeterData (t : Option String) (tariff log_date : String) (v : ℚ)
    (acc : MeterAcc) : MeterAcc :=
  if t = some "electricity_consumed" then
    if tariff = "nl_peak" then
      { acc with electricity_consumed_peak := some ⟨v, "kWh", log_date, "electricity_consumed", "peak"⟩ }
    else if tariff = "nl_offpeak" then
      { acc with electricity_consumed_offpeak := some ⟨v, "kWh", log_date, "electricity_consumed", "offpeak"⟩ }
    else acc
  else if t = some "electricity_produced" then
    if tariff = "nl_peak" then
      { acc with electricity_produced_peak := some ⟨v, "kWh", log_date, "electricity_produced", "peak"⟩ }
    else if tariff = "nl_offpeak" then
      { acc with electricity_produced_offpeak := some ⟨v, "kWh", log_date, "electricity_produced", "offpeak"⟩ }
    else acc
  else if t = some "gas_consumed" then
    { acc with gas_consumed := some ⟨v, "m³", log_date, "gas_consumed", ""⟩ }
  else acc

/-- One cumulative log of `extract_smile_meter_data` (lines 340–400);
`none` models `float(measurement.text)` raising. -/
def processCumLog (acc : MeterAcc) (log : SmileLog) : Option MeterAcc :=
  match log.typeEl, log.unitEl with
  | some t, some _u =>
      match log.period with
      | none => some acc
      | some ms =>
          ms.foldlM
            (fun acc m =>
              match m.text with
              | none => some acc
              | some txt =>
                  match pyFloat? txt with
                  | none => none
                  | some v => some (routeMeterData t m.tariff (m.log_date.getD "") v acc))
            acc
  | _, _ => some acc

/-- `entry['value']` with an absent entry contributing `0` (the
`if key in meter_data: total += …` pattern of lines 406–413). -/
def optEntryVal (e : Option MeterEntry) : ℚ :=
  match e with
  | none => 0
  | some x => x.value

/-- The full `meter_data` dict returned by `extract_smile_meter_data`:
the five device-sourced slots plus the three derived totals computed at
lines 402–437. -/
structure MeterSnapshot where
  electricity_consumed_peak : Option MeterEntry
  electricity_consumed_offpeak : Option MeterEntry
  electricity_produced_peak : Option MeterEntry
  electricity_produced_offpeak : Option MeterEntry
  gas_consumed : Option MeterEntry
  electricity_total_consumed : MeterEntry
  electricity_total_produced : MeterEntry
  electricity_net_consumed : MeterEntry
deriving Repr, DecidableEq

/-- `extract_smile_meter_data` on an already-fetched, already-parsed
domain-objects tree; `now` is `datetime.now().isoformat()`. -/
def extract_smile_meter_data (now : String) (doc : List Location) : Option MeterSnapshot :=
  match findHomeLocation doc with
  | none => none
  | some loc =>
      match loc.cumulativeLogs.foldlM processCumLog {} with
      | none => none
      | some acc =>
          let total_consumed :=
            optEntryVal acc.electricity_consumed_peak +
            optEntryVal acc.electricity_consumed_offpeak
          let total_produced :=
            optEntryVal acc.electricity_produced_peak +
            optEntryVal acc.electricity_produced_offpeak
          some ⟨acc.electricity_consumed_peak, acc.electricity_consumed_offpeak,
                acc.electricity_produced_peak, acc.electricity_produced_offpeak,
                acc.gas_consumed,
                ⟨total_consumed, "kWh", now, "electricity_total_consumed", ""⟩,
                ⟨total_produced, "kWh", now, "electricity_total_produced", ""⟩,
                ⟨total_consumed - total_produced, "kWh", now, "electricity_net_consumed", ""⟩⟩

/-! ## Device client
(`PlugwiseCollector.fetch_xml_data`, lines 71–97, and the line-identical
`DailyMeterCollector.fetch_xml_data`.) -/

/-- What one `requests.get` call does: raise, or answer with a status and
body. -/
inductive HttpOutcome where
  | netError : HttpOutcome
  | resp (status : Nat) (body : String) : HttpOutcome
deriving Repr, DecidableEq

/-- Observable result of `fetch_xml_data`: the returned value, the number
of HTTP requests performed and the number of `time.sleep(1)` calls. -/
structure FetchResult where
  result : Option String
  requests : Nat
  sleeps : Nat
deriving Repr, DecidableEq

/-- The retry loop (lines 81–95), indexed by the attempt number and the
remaining iterations.  A 200 response returns its body at once; any other
status falls through to the next attempt without sleeping; a raised
exception sleeps one unit unless this was the last attempt. -/
def fetchGo (responses : Nat → HttpOutcome) (retry_attempts : Nat) :
    Nat → Nat → FetchResult
  | _, 0 => ⟨none, 0, 0⟩
  | attempt, fuel + 1 =>
      match responses attempt with
      | .netError =>
          let r := fetchGo responses retry_attempts (attempt + 1) fuel
          ⟨r.result, r.requests + 1,
           r.sleeps + (if attempt < retry_attempts - 1 then 1 else 0)⟩
      | .resp status body =>
          if status = 200 then ⟨some body, 1, 0⟩
          else
            let r := fetchGo responses retry_attempts (attempt + 1) fuel
            ⟨r.result, r.requests + 1, r.sleeps⟩

/-- `fetch_xml_data`: a disabled device returns `None` with no request at
all; otherwise the retry loop runs `retry_attempts` times and `None` is
returned once it is exhausted. -/
def fetch_xml_data (enabled : Bool) (responses : Nat → HttpOutcome)
    (retry_attempts : Nat) : FetchResult :=
  if enabled then fetchGo responses retry_attempts 0 retry_attempts
  else ⟨none, 0, 0⟩

/-! ## File store model

Output files are CSV files that the collector only ever appends to or
renames; a file is a list of rows, each either the header row or one data
row.  Opening with mode `'a'` creates an empty file when none exists.
Dates are modelled as natural numbers and `strftime('%Y%m%d')` as
`toString`. -/

/-- One CSV row: the header line or a data line. -/
inductive Row where
  | header : Row
  | data : Row
deriving Repr, DecidableEq

/-- The file store: file name → rows. -/
abbrev FS := List (String × List Row)

/-- `os.path.exists(filename)`. -/
def fsExists (name : String) (fs : FS) : Bool :=
  (dictGet? name fs).isSome

/-- Append rows to a file, creating it when absent (mode `'a'`). -/
def fsAppend (name : String) (rows : List Row) (fs : FS) : FS :=
  match dictGet? name fs with
  | none => dictInsert name rows fs
  | some old => dictInsert name (old ++ rows) fs

/-- `os.rename(old, new)`; overwrites `new` as POSIX rename does. -/
def fsRename (old new : String) (fs : FS) : FS :=
  match dictGet? old fs with
  | none => fs
  | some content => dictInsert new content (dictRemove old fs)

/-! ## Daily power-file rotation
(`PlugwiseCollector.get_daily_csv_file`, lines 642–672, and
`save_to_daily_csv`, lines 674–723.) -/

/-- `self.current_date` / `self.current_csv_file` (the open handle is
identified by its file name; `none` means no file is open). -/
structure DailyState where
  current_date : Option Nat := none
  current_file : Option String := none
deriving Repr, DecidableEq

/-- `f"power_usage_{today.strftime('%Y%m%d')}.csv"`. -/
def power_usage_filename (d : Nat) : String :=
  "power_usage_" ++ toString d ++ ".csv"

/-- Observable file-handle events of one rotation step. -/
inductive FileEvent where
  | closed (name : String) : FileEvent
  | opened (name : String) : FileEvent
  | wroteHeader (name : String) : FileEvent
  | wroteRows (name : String) (count : Nat) : FileEvent
deriving Repr, DecidableEq

/-- Result of a rotation / write step. -/
structure DailyOut where
  st : DailyState
  fs : FS
  events : List FileEvent
deriving Repr, DecidableEq

/-- `get_daily_csv_file`: on a date change or with no open file, close
any open handle, open (append-or-create) today's file, write the header
only when the file did not previously exist, and record today. -/
def get_daily_csv_file (today : Nat) (st : DailyState) (fs : FS) : DailyOut :=
  if st.current_date ≠ some today ∨ st.current_file = none then
    let closeEv : List FileEvent :=
      match st.current_file with
      | some f => [.closed f]
      | none => []
    let filename := power_usage_filename today
    let file_exists := fsExists filename fs
    let fs := fsAppend filename [] fs
    let fs := if file_exists then fs else fsAppend filename [Row.header] fs
    ⟨⟨some today, some filename⟩, fs,
     closeEv ++ [.opened filename] ++
       (if file_exists then [] else [.wroteHeader filename])⟩
  else ⟨st, fs, []⟩

/-- The write path of `save_to_daily_csv` for a cycle whose batch holds
`nrows` resolved readings: get the daily writer, then
`writer.writerows(csv_data)` appends the batch to the open file. -/
def write_power_rows (today : Nat) (nrows : Nat) (st : DailyState) (fs : FS) : DailyOut :=
  let r := get_daily_csv_file today st fs
  match r.st.current_file with
  | some fname =>
      ⟨r.st, fsAppend fname (List.replicate nrows Row.data) r.fs,
       r.events ++ [.wroteRows fname nrows]⟩
  | none => r

/-! ## Session meter file
(`PlugwiseCollector.get_session_meter_file`, lines 467–514,
`save_meter_data_to_session_csv`, lines 516–551, and
`finalize_session_meter_file`, lines 553–586.) -/

/-- `self.session_start_date` / `self.session_meter_file`. -/
structure SessionState where
  session_start_date : Option Nat := none
  session_open : Bool := false
deriving Repr, DecidableEq

/-- `f"meter_readings_session_{start.strftime('%Y%m%d')}.csv"`. -/
def session_filename (start : Nat) : String :=
  "meter_readings_session_" ++ toString start ++ ".csv"

/-- `f"meter_readings_{start.strftime('%Y%m%d')}_{end.strftime('%Y%m%d')}.csv"`. -/
def final_filename (start finish : Nat) : String :=
  "meter_readings_" ++ toString start ++ "_" ++ toString finish ++ ".csv"

/-- `get_session_meter_file`: fix the session start date on first use;
open (append-or-create) the provisional session file once, writing the
header only when the file did not previously exist. -/
def get_session_meter_file (today : Nat) (st : SessionState) (fs : FS) :
    SessionState × FS :=
  let start := st.session_start_date.getD today
  if st.session_open then ({ session_start_date := some start, session_open := true }, fs)
  else
    let filename := session_filename start
    let file_exists := fsExists filename fs
    let fs := fsAppend filename [] fs
    let fs := if file_exists then fs else fsAppend filename [Row.header] fs
    ({ session_start_date := some start, session_open := true }, fs)

/-- The write path of `save_meter_data_to_session_csv` when the snapshot
is non-empty: get the session writer and append one wide row. -/
def write_session_row (today : Nat) (st : SessionState) (fs : FS) :
    SessionState × FS :=
  let r := get_session_meter_file today st fs
  match r.1.session_start_date with
  | some start => (r.1, fsAppend (session_filename start) [Row.data] r.2)
  | none => r

/-- Result of `finalize_session_meter_file`: new state, file store, and
the function's return value (the final file name when a rename
happened). -/
structure SessOut where
  st : SessionState
  fs : FS
  renamed : Option String
deriving Repr, DecidableEq

/-- `finalize_session_meter_file`: with a session start date recorded,
close any open handle, then rename the provisional file — only if it
exists — to the name embedding start and end (today) dates. -/
def finalize_session_meter_file (today : Nat) (st : SessionState) (fs : FS) : SessOut :=
  match st.session_start_date with
  | none => ⟨st, fs, none⟩
  | some start =>
      let sfn := session_filename start
      let ffn := final_filename start today
      let st' : SessionState := ⟨some start, false⟩
      if fsExists sfn fs then ⟨st', fsRename sfn ffn fs, some ffn⟩
      else ⟨st', fs, none⟩

/-! ## Collection scheduler
(`PlugwiseCollector.should_collect_meter_data_today`, lines 588–597, and
`run_single_collection`, lines 768–799.) -/

/-- `should_collect_meter_data_today` as a state transformer on
`self.last_meter_collection_date`: it records today as soon as the gate
passes, before any collection is attempted. -/
def should_collect_meter_data_today (today : Nat) (last : Option Nat) :
    Bool × Option Nat :=
  if last ≠ some today then (true, some today) else (false, last)

/-- The mutable collector state touched by one collection cycle. -/
structure RunState where
  appliance_mapping : List (String × ApplianceInfo)
  last_meter_collection_date : Option Nat
  collect_meter_data : Bool
  daily : DailyState
  session : SessionState
deriving Repr, DecidableEq

/-- One cycle's external inputs: today's date, the extraction timestamp
and the three endpoint responses, already parsed (`none` = the fetch
exhausted its retries). -/
structure CycleInputs where
  today : Nat
  now : String
  appliancesDoc : Option (List Appliance)
  modulesDoc : Option (List StretchModule)
  smileDoc : Option (List Location)
deriving Repr

/-- The `"stretch"` entry of `power_data["devices"]`: absent when the
modules fetch failed (`extract_stretch_power` returns `None`) or when the
extracted dict is empty (falsy, so `if stretch_data` skips it). -/
def stretchDevice? (mapping : List (String × ApplianceInfo))
    (modulesDoc : Option (List StretchModule)) : Option (List (String × StretchReading)) :=
  match modulesDoc with
  | none => none
  | some mods =>
      let d := extract_stretch_power mapping mods
      if d.isEmpty then none else some d

/-- The `"smile"` entry of `power_data["devices"]` (a successful
`extract_smile_power` result is a non-empty dict, hence always truthy). -/
def smileDevice? (smileDoc : Option (List Location)) : Option SmilePowerResult :=
  match smileDoc with
  | none => none
  | some doc => extract_smile_power doc

/-- Result of one `run_single_collection` cycle. -/
structure RunResult where
  st : RunState
  fs : FS
  returned : Bool          -- `power_data` returned vs. `None`
  meterAttempted : Bool    -- `collect_daily_meter_data` was called
deriving Repr, DecidableEq

/-- The appliance mapping the cycle works with: rebuilt from the
registry endpoint when the cache is empty (`if not self.appliance_mapping`),
with a failed fetch yielding `{}`. -/
def cycleMapping (inp : CycleInputs) (st : RunState) : List (String × ApplianceInfo) :=
  if st.appliance_mapping.isEmpty then
    match inp.appliancesDoc with
    | none => []
    | some doc => build_appliance_mapping doc
  else st.appliance_mapping

/-- The meter block of `run_single_collection` (lines 784–790): gated by
`collect_meter_data and should_collect_meter_data_today()`, collect the
Smile meter snapshot and — when it is non-null — append one row through
the session rotator.  Returns the new state, file store, and whether
collection was attempted. -/
def meter_phase (inp : CycleInputs) (st : RunState) (fs : FS) :
    RunState × FS × Bool :=
  let gate :=
    if st.collect_meter_data then
      should_collect_meter_data_today inp.today st.last_meter_collection_date
    else (false, st.last_meter_collection_date)
  let st := { st with last_meter_collection_date := gate.2 }
  if gate.1 then
    match (match inp.smileDoc with
           | none => none
           | some doc => extract_smile_meter_data inp.now doc) with
    | some _snap =>
        let sr := write_session_row inp.today st.session fs
        ({ st with session := sr.1 }, sr.2, true)
    | none => (st, fs, true)
  else (st, fs, false)

/-- Number of rows the daily CSV write appends this cycle: one per
resolved Stretch appliance plus one for the Smile main meter. -/
def cycleRows (inp : CycleInputs) (mapping : List (String × ApplianceInfo)) : Nat :=
  (match stretchDevice? mapping inp.modulesDoc with
   | some d => d.length
   | none => 0) +
    (if (smileDevice? inp.smileDoc).isSome then 1 else 0)

/-- The power-persistence part of the cycle: refresh the mapping cache
and write the batch through the daily rotator. -/
def power_write_step (inp : CycleInputs) (st : RunState) (fs : FS) : RunState × FS :=
  let mapping := cycleMapping inp st
  let dr := write_power_rows inp.today (cycleRows inp mapping) st.daily fs
  ({ st with appliance_mapping := mapping, daily := dr.st }, dr.fs)

/-- Lines 792–794: finalize the session file when explicitly requested. -/
def finalize_step (inp : CycleInputs) (b : Bool) (st : RunState) (fs : FS) :
    RunState × FS :=
  if b && st.collect_meter_data then
    let fr := finalize_session_meter_file inp.today st.session fs
    ({ st with session := fr.st }, fr.fs)
  else (st, fs)

/-- `run_single_collection` with an output directory: extract power from
both devices (rebuilding the appliance mapping when the cache is empty);
when any device produced data, write the batch through the daily rotator,
run the meter block, and finalize the session file when requested.  When
no device produced data the cycle returns `None` and does nothing else. -/
def run_single_collection (inp : CycleInputs) (st : RunState) (fs : FS)
    (finalize_session : Bool) : RunResult :=
  if (stretchDevice? (cycleMapping inp st) inp.modulesDoc).isSome ∨
      (smileDevice? inp.smileDoc).isSome then
    let pw := power_write_step inp st fs
    let mp := meter_phase inp pw.1 pw.2
    let q := finalize_step inp finalize_session mp.1 mp.2.1
    ⟨q.1, q.2, true, mp.2.2⟩
  else ⟨{ st with appliance_mapping := cycleMapping inp st }, fs, false, false⟩

/-- Input of the spec's end-to-end scenario: consumed `nl_peak = 100.0`
and `nl_offpeak = 50.0`, produced `nl_peak = 10.0` (offpeak absent), and
`gas_consumed = 5.0`. -/
def c1Doc : List Location :=
  [⟨homeLocationId, [],
    [⟨some (some "electricity_consumed"), some (some "kWh"),
      some [⟨some "100.0", "", "nl_peak", some "d1"⟩,
            ⟨some "50.0", "", "nl_offpeak", some "d2"⟩]⟩,
     ⟨some (some "electricity_produced"), some (some "kWh"),
      some [⟨some "10.0", "", "nl_peak", some "d3"⟩]⟩,
     ⟨some (some "gas_consumed"), some (some "m3"),
      some [⟨some "5.0", "", "", some "d4"⟩]⟩]⟩]

/-- The snapshot `extract_smile_meter_data` yields on `c1Doc`. -/
def c1Snap : MeterSnapshot :=
  (extract_smile_meter_data "t0" c1Doc).getD
    ⟨none, none, none, none, none,
     ⟨0, "", "", "", ""⟩, ⟨0, "", "", "", ""⟩, ⟨0, "", "", "", ""⟩⟩

/-! ## C2: malformed Stretch measurement text -/

/-- Mapping with two resolved point meters. -/
def c2Mapping : List (String × ApplianceInfo) :=
  [("m1", ⟨"Lamp", "a1", "electricity_point_meter"⟩),
   ("m2", ⟨"Fridge", "a2", "electricity_point_meter"⟩)]

/-- A modules tree whose first mapped meter carries the malformed
consumed text `"1.2.3"`, followed by a healthy meter reading `"7.0"`. -/
def c2Modules : List StretchModule :=
  [⟨"mod1",
    [⟨"m1", [⟨some "1.2.3", "consumed", "", some "d"⟩]⟩,
     ⟨"m2", [⟨some "7.0", "consumed", "", some "d"⟩]⟩]⟩]

/-! ## C4: session-file finalize -/

/-- The behaviour C4 claims of `finalize_session_meter_file`: a recorded
session with an existing provisional file is renamed to the
start/end-dated name; a second finalize after a successful one is a
no-op; a run that never created a session file makes finalize a no-op. -/
def FinalizeSpec (start today today2 : Nat) (opened : Bool) (fs : FS)
    (content : List Row) : Prop :=
  (finalize_session_meter_file today ⟨some start, opened⟩ fs).renamed =
      some (final_filename start today) ∧
  dictGet? (final_filename start today)
      (finalize_session_meter_file today ⟨some start, opened⟩ fs).fs = some content ∧
  dictGet? (session_filename start)
      (finalize_session_meter_file today ⟨some start, opened⟩ fs).fs = none ∧
  (finalize_session_meter_file today ⟨some start, opened⟩ fs).st.session_open = false ∧
  finalize_session_meter_file today2
      (finalize_session_meter_file today ⟨some start, opened⟩ fs).st
      (finalize_session_meter_file today ⟨some start, opened⟩ fs).fs =
    ⟨(finalize_session_meter_file today ⟨some start, opened⟩ fs).st,
     (finalize_session_meter_file today ⟨some start, opened⟩ fs).fs, none⟩ ∧
  (∀ t fs', finalize_session_meter_file t ⟨none, false⟩ fs' = ⟨⟨none, false⟩, fs', none⟩)

/-- A store holding the provisional session file of start date 1. -/
def c4fs : FS := [(session_filename 1, [Row.header, Row.data])]

/-- The first write of date `D`. -/
def dailyWrite1 (D k1 : Nat) (fs0 : FS) : DailyOut :=
  write_power_rows D k1 ⟨none, none⟩ fs0

/-- The following write of date `D'`. -/
def dailyWrite2 (D D' k1 k2 : Nat) (fs0 : FS) : DailyOut :=
  write_power_rows D' k2 (dailyWrite1 D k1 fs0).st (dailyWrite1 D k1 fs0).fs

/-- The behaviour C3 claims of the daily rotation: after writing on date
`D` and then on date `D'`, the two deterministically named files each
hold one header followed by their own batch (exactly one header row
each); the second write first closes the date-`D` handle, then opens only
the date-`D'` file — the date-`D` file is not reopened. -/
def DailyRotationSpec (D D' k1 k2 : Nat) (fs0 : FS) : Prop :=
  dictGet? (power_usage_filename D) (dailyWrite2 D D' k1 k2 fs0).fs =
      some (Row.header :: List.replicate k1 Row.data) ∧
  dictGet? (power_usage_filename D') (dailyWrite2 D D' k1 k2 fs0).fs =
      some (Row.header :: List.replicate k2 Row.data) ∧
  (Row.header :: List.replicate k1 Row.data).count Row.header = 1 ∧
  (Row.header :: List.replicate k2 Row.data).count Row.header = 1 ∧
  (dailyWrite2 D D' k1 k2 fs0).events =
    [FileEvent.closed (power_usage_filename D),
     FileEvent.opened (power_usage_filename D'),
     FileEvent.wroteHeader (power_usage_filename D'),
     FileEvent.wroteRows (power_usage_filename D') k2] ∧
  FileEvent.opened (power_usage_filename D) ∉ (dailyWrite2 D D' k1 k2 fs0).events

/-! ## C5: fetch retry policy -/

/-- Did the request succeed with HTTP 200? -/
def is200 : HttpOutcome → Bool
  | .resp 200 _ => true
  | _ => false

/-- Did `requests.get` raise? -/
def isNetError : HttpOutcome → Bool
  | .netError => true
  | _ => false

/-- Number of network-error outcomes among attempts
`lo, lo+1, …, lo+len-1`. -/
def cntNE (responses : Nat → HttpOutcome) : Nat → Nat → Nat
  | _, 0 => 0
  | lo, len + 1 => (if isNetError (responses lo) then 1 else 0) + cntNE responses (lo + 1) len

/-- Responses where every attempt yields HTTP 500. -/
def c5all500 : Nat → HttpOutcome := fun _ => .resp 500 ""

/-- The amended C5 behaviour: at most `retry_attempts` requests; the
first 200 response ends the loop at once with its body; when no attempt
returns 200 the loop performs exactly `retry_attempts` requests and
returns `None` (never an exception); one unit of sleep follows exactly
each network-error attempt that is not the final attempt — non-200
responses are retried without sleeping. -/
def FetchRetrySpec (responses : Nat → HttpOutcome) (n : Nat) : Prop :=
  (fetch_xml_data true responses n).requests ≤ n ∧
  (∀ k b, k < n → (∀ j, j < k → is200 (responses j) = false) →
      responses k = HttpOutcome.resp 200 b →
      fetch_xml_data true responses n = ⟨some b, k + 1, cntNE responses 0 k⟩) ∧
  ((∀ j, j < n → is200 (responses j) = false) →
      fetch_xml_data true responses n = ⟨none, n, cntNE responses 0 (n - 1)⟩)

/-- A run with one network error, one HTTP 500, then a 200 response. -/
def c5resp : Nat → HttpOutcome := fun k =>
  if k = 0 then .netError else if k = 1 then .resp 500 "x" else .resp 200 "xml"

/-! ## C6: Smile all-or-nothing policy -/

/-- Would `float(measurement.text)` raise on this measurement? -/
def badText (m : Measurement) : Bool :=
  match m.text with
  | none => false
  | some txt => (pyFloat? txt).isNone

/-- A cumulative log on which the extraction loop raises: its `type` and
`unit` elements are present, it has a period, and some measurement there
has text `float` rejects. -/
def badCumLog (log : SmileLog) : Bool :=
  log.typeEl.isSome && log.unitEl.isSome &&
    (match log.period with
     | none => false
     | some ms => ms.any badText)

/-- A point log with type `electricity_consumed` and unit `W`. -/
def matchesPowerLog (log : SmileLog) : Prop :=
  log.typeEl = some (some "electricity_consumed") ∧ log.unitEl = some (some "W")

instance (log : SmileLog) : Decidable (matchesPowerLog log) := by
  unfold matchesPowerLog
  infer_instance

/-- The C6 behaviour: if the fixed home location is missing, or any
processed cumulative measurement would make `float` raise, both Smile
extractors return `None`; likewise, a `float` failure in the point-log
scan of `extract_smile_power` (the first matching log whose period is
processed, line 240) makes that extractor return `None` — no partial
snapshot escapes an extraction in which an exception occurred. -/
def SmileAllOrNothing (now : String) (doc : List Location) : Prop :=
  (findHomeLocation doc = none →
     extract_smile_meter_data now doc = none ∧ extract_smile_power doc = none) ∧
  (∀ loc, findHomeLocation doc = some loc →
     (∃ log ∈ loc.cumulativeLogs, badCumLog log = true) →
     extract_smile_meter_data now doc = none ∧ extract_smile_power doc = none) ∧
  (∀ loc, findHomeLocation doc = some loc →
     ∀ (pre rest : List SmileLog) (log : SmileLog) (ms : List Measurement),
       loc.pointLogs = pre ++ log :: rest →
       (∀ l ∈ pre, ¬ matchesPowerLog l ∨ l.period = none) →
       matchesPowerLog log → log.period = some ms →
       (∃ m ∈ ms, badText m = true) →
       extract_smile_power doc = none)

/-- A document whose home location holds one cumulative log with an
unparsable measurement text. -/
def c6BadDoc : List Location :=
  [⟨homeLocationId, [],
    [⟨some (some "electricity_consumed"), some (some "kWh"),
      some [⟨some "abc", "", "nl_peak", some "d"⟩]⟩]⟩]

/-- A document with no home location at all. -/
def c6NoHomeDoc : List Location := [⟨"other", [], []⟩]

/-- A document whose home location has a matching point log without a
period (skipped by the scan) followed by a matching point log whose
period holds an unparsable measurement text; its cumulative logs are
clean. -/
def c6BadPointDoc : List Location :=
  [⟨homeLocationId,
    [⟨some (some "electricity_consumed"), some (some "W"), none⟩,
     ⟨some (some "electricity_consumed"), some (some "W"),
      some [⟨some "x1", "", "nl_peak", none⟩]⟩],
    [⟨some (some "electricity_consumed"), some (some "kWh"),
      some [⟨some "100", "", "nl_peak", some "d"⟩]⟩]⟩]

/-! ## C9: appliance mapping cardinality -/

/-- The point-meter services of one appliance. -/
def epmFilter (a : Appliance) : List Service :=
  a.services.filter (fun s => s.tag = "electricity_point_meter")

/-- The mapping entries a service list contributes, in loop order. -/
def applianceEntries (nm aid : String) : List Service → List (String × ApplianceInfo)
  | [] => []
  | s :: t =>
      if s.tag = "electricity_point_meter" then
        (s.id, ⟨nm, aid, s.tag⟩) :: applianceEntries nm aid t
      else applianceEntries nm aid t

/-- All entries contributed by a registry document, in traversal order. -/
def allEntries : List Appliance → List (String × ApplianceInfo)
  | [] => []
  | a :: t => applianceEntries (applianceName a.name) a.id a.services ++ allEntries t

/-- The C9 behaviour: with the point-meter service ids of the document
pairwise distinct and every appliance exposing exactly one point-meter
service, the mapping has exactly one entry per appliance; an appliance
without point-meter services contributes no entry. -/
def ApplianceMappingSpec (doc : List Appliance) : Prop :=
  (build_appliance_mapping doc).length = doc.length ∧
  (∀ a : Appliance, epmFilter a = [] →
    build_appliance_mapping (doc ++ [a]) = build_appliance_mapping doc)

/-- Registry with two appliances, one point meter each (distinct ids). -/
def c9Doc : List Appliance :=
  [⟨"a1", some "Lamp", [⟨"electricity_point_meter", "s1"⟩]⟩,
   ⟨"a2", some "Tv", [⟨"thermostat", "x1"⟩, ⟨"electricity_point_meter", "s2"⟩]⟩]

/-! ## C7: Smile instantaneous power / active tariff -/

/-- Value a measurement contributes to the running total (`0` when the
text is absent; under a successful fold the text always parses). -/
def msValue (m : Measurement) : ℚ :=
  match m.text with
  | none => 0
  | some s => (pyFloat? s).getD 0

/-- Sum of all measurement values of a period. -/
def measurementSum : List Measurement → ℚ
  | [] => 0
  | m :: t => msValue m + measurementSum t

/-- The amended C7 behaviour, for a home location whose point logs split
as `pre ++ log :: rest` with `pre` free of matching logs, `log` the first
`electricity_consumed`/`W` log and `ms` its period: the total is the sum
of all measurement values of the period, the tariff components are the
ones accumulated by the scan, and the active tariff is derived from them
by the source's conditions — `'peak'` iff peak > 0 and offpeak = 0,
`'off-peak'` iff offpeak > 0 and peak = 0, `'both'` iff both > 0, and
`'none'` otherwise.  The scan stops at `log`: the result equals the scan
of `pre ++ [log]` alone. -/
def SmilePowerFirstLogSpec (doc : List Location) (loc : Location)
    (pre : List SmileLog) (log : SmileLog) (ms : List Measurement)
    (acc : PPAcc) : Prop :=
  (extract_smile_power doc).map (fun r => r.current_power.total_watts) =
      some (measurementSum ms) ∧
  (extract_smile_power doc).map (fun r => r.current_power.peak_watts) =
      some acc.peak_power ∧
  (extract_smile_power doc).map (fun r => r.current_power.offpeak_watts) =
      some acc.offpeak_power ∧
  (extract_smile_power doc).map (fun r => r.current_power.active_tariff) =
      some (some (if acc.peak_power > 0 ∧ acc.offpeak_power = 0 then "peak"
        else if acc.offpeak_power > 0 ∧ acc.peak_power = 0 then "off-peak"
        else if acc.peak_power > 0 ∧ acc.offpeak_power > 0 then "both"
        else "none")) ∧
  runPointLogs {} loc.pointLogs = runPointLogs {} (pre ++ [log])

/-- The first matching point log of the counterexample: `nl_peak = 3`,
`nl_offpeak = -5` (a negative instantaneous component). -/
def c7Log : SmileLog :=
  ⟨some (some "electricity_consumed"), some (some "W"),
   some [⟨some "3", "", "nl_peak", some "ld"⟩,
         ⟨some "-5", "", "nl_offpeak", none⟩]⟩

/-- The counterexample document. -/
def c7Doc : List Location := [⟨homeLocationId, [c7Log], []⟩]

/-- The accumulator after scanning `c7Log`'s period. -/
def c7Acc : PPAcc :=
  (([⟨some "3", "", "nl_peak", some "ld"⟩,
     ⟨some "-5", "", "nl_offpeak", none⟩] : List Measurement).foldlM
    processPointMeasurement {}).getD ⟨0, none, 0, 0, none⟩

/-- Witness data for the amended C7 theorem: one non-matching log ahead,
the first matching log with a single `nl_peak = 300` measurement, and a
further matching log behind that must be ignored. -/
def c7wMs : List Measurement := [⟨some "300", "", "nl_peak", some "t1"⟩]

def c7wLog : SmileLog :=
  ⟨some (some "electricity_consumed"), some (some "W"), some c7wMs⟩

def c7wPre : List SmileLog :=
  [⟨some (some "gas_consumed"), some (some "W"), some []⟩]

def c7wRest : List SmileLog :=
  [⟨some (some "electricity_consumed"), some (some "W"),
    some [⟨some "999", "", "nl_peak", some "t2"⟩]⟩]

def c7wLoc : Location :=
  ⟨homeLocationId, c7wPre ++ c7wLog :: c7wRest, []⟩

def c7wAcc : PPAcc :=
  (c7wMs.foldlM processPointMeasurement {}).getD ⟨0, none, 0, 0, none⟩

/-- The amended C8 behaviour: a cycle attempts meter collection only when
meter collection is enabled and today differs from the last recorded
date; the date is recorded as soon as the gate passes — at attempt time,
whether or not the collection then succeeds — so after any attempt a
further cycle the same day performs no attempt. -/
def MeterGateSpec (inp : CycleInputs) (st : RunState) (fs : FS) (b : Bool) : Prop :=
  ((run_single_collection inp st fs b).meterAttempted = true →
     st.collect_meter_data = true ∧
     st.last_meter_collection_date ≠ some inp.today ∧
     (run_single_collection inp st fs b).st.last_meter_collection_date =
       some inp.today) ∧
  (st.last_meter_collection_date = some inp.today →
     (run_single_collection inp st fs b).meterAttempted = false) ∧
  ((run_single_collection inp st fs b).meterAttempted = true →
     ∀ (inp2 : CycleInputs) (fs2 : FS) (b2 : Bool), inp2.today = inp.today →
       (run_single_collection inp2 (run_single_collection inp st fs b).st
         fs2 b2).meterAttempted = false)

/-- Mapping and modules giving the cycle non-empty power data. -/
def c8Map : List (String × ApplianceInfo) :=
  [("m1", ⟨"Lamp", "a1", "electricity_point_meter"⟩)]

def c8Mods : List StretchModule :=
  [⟨"mod1", [⟨"m1", [⟨some "5", "consumed", "", some "d"⟩]⟩]⟩]

/-- A Smile document from which meter extraction succeeds. -/
def c8Smile : List Location :=
  [⟨homeLocationId, [],
    [⟨some (some "electricity_consumed"), some (some "kWh"),
      some [⟨some "100", "", "nl_peak", some "d"⟩]⟩]⟩]

def c8St : RunState := ⟨c8Map, none, true, ⟨none, none⟩, ⟨none, false⟩⟩

/-- Cycle 1 on day 5: power data present, Smile fetch fails, so the meter
collection attempt is unsuccessful. -/
def c8Inp1 : CycleInputs := ⟨5, "t1", none, some c8Mods, none⟩

/-- Cycle 2, same day, with a healthy Smile document. -/
def c8Inp2 : CycleInputs := ⟨5, "t2", none, some c8Mods, some c8Smile⟩

def c8R1 : RunResult := run_single_collection c8Inp1 c8St [] false

def c8R2 : RunResult := run_single_collection c8Inp2 c8R1.st c8R1.fs false

def c10St : RunState := ⟨c8Map, some 3, true, ⟨none, none⟩, ⟨none, false⟩⟩

/-- A cycle whose every fetch failed. -/
def c10Inp : CycleInputs := ⟨7, "t", none, none, none⟩

/-! ## Theorems -/

theorem dictGet?_dictInsert_self {α : Type} (k : String) (v : α) (d : List (String × α)) :
    dictGet? k (dictInsert k v d) = some v := by
  induction d with
  | nil => simp [dictInsert, dictGet?]
  | cons e t ih =>
      by_cases h : e.1 = k
      · simp [dictInsert, dictGet?, h]
      · simpa [dictInsert, dictGet?, h] using ih

theorem dictGet?_dictInsert_ne {α : Type} {k k' : String} (v : α) (d : List (String × α))
    (h : k ≠ k') : dictGet? k (dictInsert k' v d) = dictGet? k d := by
  induction d with
  | nil => simp [dictInsert, dictGet?, Ne.symm h]
  | cons e t ih =>
      by_cases he : e.1 = k'
      · simp [dictInsert, dictGet?, he, Ne.symm h]
      · by_cases hk : e.1 = k
        · simp [dictInsert, dictGet?, he, hk, h]
        · simpa [dictInsert, dictGet?, he, hk] using ih

theorem dictGet?_dictRemove_self {α : Type} (k : String) (d : List (String × α)) :
    dictGet? k (dictRemove k d) = none := by
  induction d with
  | nil => simp [dictRemove, dictGet?]
  | cons e t ih =>
      by_cases h : e.1 = k
      · simpa [dictRemove, h] using ih
      · simpa [dictRemove, dictGet?, h] using ih

theorem dictGet?_dictRemove_ne {α : Type} {k k' : String} (d : List (String × α))
    (h : k ≠ k') : dictGet? k (dictRemove k' d) = dictGet? k d := by
  induction d with
  | nil => simp [dictRemove]
  | cons e t ih =>
      by_cases he : e.1 = k'
      · have hk : e.1 ≠ k := by rw [he]; exact Ne.symm h
        simpa [dictRemove, dictGet?, he, hk, Ne.symm h] using ih
      · by_cases hk : e.1 = k
        · simp [dictRemove, dictGet?, he, hk, h]
        · simpa [dictRemove, dictGet?, he, hk] using ih

/-! ## C1: derived meter totals -/

/-- C1: for every Smile domain-objects document from which
`extract_smile_meter_data` returns a snapshot, the derived entries satisfy
`electricity_total_consumed.value = electricity_consumed_peak.value +
electricity_consumed_offpeak.value`,
`electricity_total_produced.value = electricity_produced_peak.value +
electricity_produced_offpeak.value` and
`electricity_net_consumed.value = electricity_total_consumed.value −
electricity_total_produced.value`, any absent peak/offpeak entry counting
as 0; the totals are computed from the other entries for every document,
never taken from the device data. -/
theorem smile_meter_derived_totals (now : String) (doc : List Location)
    (s : MeterSnapshot) (h : extract_smile_meter_data now doc = some s) :
    s.electricity_total_consumed.value =
      optEntryVal s.electricity_consumed_peak +
      optEntryVal s.electricity_consumed_offpeak ∧
    s.electricity_total_produced.value =
      optEntryVal s.electricity_produced_peak +
      optEntryVal s.electricity_produced_offpeak ∧
    s.electricity_net_consumed.value =
      s.electricity_total_consumed.value - s.electricity_total_produced.value := by
  unfold extract_smile_meter_data at h
  split at h
  · exact absurd h (by simp)
  · split at h
    · exact absurd h (by simp)
    · simp only [Option.some.injEq] at h
      subst h
      exact ⟨rfl, rfl, rfl⟩

theorem opt_eq_some_getD {α : Type} (o : Option α) (d : α) (h : o.isSome = true) :
    o = some (o.getD d) := by
  cases o with
  | none => cases h
  | some x => rfl

theorem smile_meter_derived_totals_witness :
    c1Snap.electricity_total_consumed.value =
      optEntryVal c1Snap.electricity_consumed_peak +
      optEntryVal c1Snap.electricity_consumed_offpeak ∧
    c1Snap.electricity_total_produced.value =
      optEntryVal c1Snap.electricity_produced_peak +
      optEntryVal c1Snap.electricity_produced_offpeak ∧
    c1Snap.electricity_net_consumed.value =
      c1Snap.electricity_total_consumed.value -
      c1Snap.electricity_total_produced.value :=
  smile_meter_derived_totals "t0" c1Doc c1Snap
    (opt_eq_some_getD (extract_smile_meter_data "t0" c1Doc) _ (by decide))

/-- C2 (failing input): the text `"1.2.3"` is not a valid signed decimal,
yet the guard `power_value.replace('.', '').replace('-', '').isdigit()`
accepts it, so `float` raises inside the loop: no `0.0` reading is
recorded for the appliance and the extraction of the remaining readings
(the healthy `"7.0"` meter) is aborted — the returned dict is empty. -/
theorem stretch_malformed_text_aborts :
    pyIsDigit (stripDotsDashes "1.2.3") = true ∧
    stretchParsePower "1.2.3" = none ∧
    extract_stretch_power c2Mapping c2Modules = [] ∧
    dictGet? "Lamp" (extract_stretch_power c2Mapping c2Modules) = none ∧
    dictGet? "Fridge" (extract_stretch_power c2Mapping c2Modules) = none := by
  refine ⟨by decide, by decide, by decide, by decide, by decide⟩

/-- C4: `finalize_session_meter_file` renames
`meter_readings_session_{start}.csv` to `meter_readings_{start}_{end}.csv`
with `end` = today; it is idempotent — a second call after a successful
finalize finds no provisional file and does nothing — and with no session
ever created it is a no-op. -/
theorem finalize_session_idempotent (start today today2 : Nat) (opened : Bool)
    (fs : FS) (content : List Row)
    (hx : dictGet? (session_filename start) fs = some content)
    (hne : session_filename start ≠ final_filename start today) :
    FinalizeSpec start today today2 opened fs content := by
  have e1 : finalize_session_meter_file today ⟨some start, opened⟩ fs =
      ⟨⟨some start, false⟩,
       dictInsert (final_filename start today) content
         (dictRemove (session_filename start) fs),
       some (final_filename start today)⟩ := by
    unfold finalize_session_meter_file
    simp [fsExists, fsRename, hx]
  have hnone : dictGet? (session_filename start)
      (dictInsert (final_filename start today) content
        (dictRemove (session_filename start) fs)) = none := by
    rw [dictGet?_dictInsert_ne _ _ hne]
    exact dictGet?_dictRemove_self _ _
  have e2 : finalize_session_meter_file today2 (⟨some start, false⟩ : SessionState)
      (dictInsert (final_filename start today) content
        (dictRemove (session_filename start) fs)) =
      ⟨⟨some start, false⟩,
       dictInsert (final_filename start today) content
         (dictRemove (session_filename start) fs), none⟩ := by
    unfold finalize_session_meter_file
    simp [fsExists, hnone]
  unfold FinalizeSpec
  rw [e1]
  exact ⟨rfl, dictGet?_dictInsert_self _ _ _, hnone, rfl, e2, fun t fs' => rfl⟩

theorem finalize_session_idempotent_witness :
    FinalizeSpec 1 2 3 true c4fs [Row.header, Row.data] :=
  finalize_session_idempotent 1 2 3 true c4fs [Row.header, Row.data]
    (by decide) (by decide)

/-! ## C3: daily power-file rotation -/

theorem dictInsert_dictInsert_self {α : Type} (k : String) (v w : α)
    (d : List (String × α)) :
    dictInsert k v (dictInsert k w d) = dictInsert k v d := by
  induction d with
  | nil => simp [dictInsert]
  | cons e t ih =>
      by_cases h : e.1 = k
      · simp [dictInsert, h]
      · simpa [dictInsert, h] using ih

theorem count_header_replicate (k : Nat) :
    (List.replicate k Row.data).count Row.header = 0 := by
  induction k with
  | zero => rfl
  | succ n ih => simpa [List.replicate, List.count_cons] using ih

/-- One power write against a file store where today's file does not yet
exist, from a state that is not already open on today: the old handle is
closed, today's file is created with a header and receives the batch. -/
theorem write_power_rows_fresh (D k : Nat) (st : DailyState) (fs : FS)
    (hcond : st.current_date ≠ some D ∨ st.current_file = none)
    (hnew : dictGet? (power_usage_filename D) fs = none) :
    write_power_rows D k st fs =
      ⟨⟨some D, some (power_usage_filename D)⟩,
       dictInsert (power_usage_filename D) (Row.header :: List.replicate k Row.data) fs,
       (match st.current_file with
        | some f => [FileEvent.closed f]
        | none => []) ++
         [FileEvent.opened (power_usage_filename D),
          FileEvent.wroteHeader (power_usage_filename D),
          FileEvent.wroteRows (power_usage_filename D) k]⟩ := by
  unfold write_power_rows get_daily_csv_file
  rw [if_pos hcond]
  simp only [fsExists, fsAppend, hnew, Option.isSome_none, Bool.false_eq_true, if_false,
    dictGet?_dictInsert_self, dictInsert_dictInsert_self, List.nil_append,
    List.append_assoc, List.singleton_append, List.cons_append, List.nil_append]

/-- C3: writing power readings on date `D` and then on a different date
`D'` produces two distinct files, each deterministically named by its
date and each containing exactly one header row; on the `D'`-write the
open date-`D` handle is closed first and the date-`D` file is not
reopened. -/
theorem daily_rotation (D D' k1 k2 : Nat) (fs0 : FS)
    (hfn : power_usage_filename D ≠ power_usage_filename D')
    (h1 : dictGet? (power_usage_filename D) fs0 = none)
    (h2 : dictGet? (power_usage_filename D') fs0 = none) :
    DailyRotationSpec D D' k1 k2 fs0 := by
  have hD : D ≠ D' := fun h => hfn (by rw [h])
  have e1 := write_power_rows_fresh D k1 ⟨none, none⟩ fs0 (Or.inr rfl) h1
  have h2' : dictGet? (power_usage_filename D') (dailyWrite1 D k1 fs0).fs = none := by
    rw [dailyWrite1, e1]
    dsimp only
    rw [dictGet?_dictInsert_ne _ _ (Ne.symm hfn)]
    exact h2
  have hcond2 : (dailyWrite1 D k1 fs0).st.current_date ≠ some D' ∨
      (dailyWrite1 D k1 fs0).st.current_file = none := by
    left
    rw [dailyWrite1, e1]
    simpa using hD
  have e2 := write_power_rows_fresh D' k2 (dailyWrite1 D k1 fs0).st
    (dailyWrite1 D k1 fs0).fs hcond2 h2'
  unfold DailyRotationSpec
  rw [dailyWrite2, e2, dailyWrite1, e1]
  dsimp only
  refine ⟨?_, ?_, ?_, ?_, rfl, ?_⟩
  · rw [dictGet?_dictInsert_ne _ _ hfn, dictGet?_dictInsert_self]
  · rw [dictGet?_dictInsert_self]
  · simp [List.count_cons, count_header_replicate]
  · simp [List.count_cons, count_header_replicate]
  · simp [hfn]

/-- C3 witness: dates 1 and 2, batches of 1 and 2 rows, an empty store. -/
theorem daily_rotation_witness : DailyRotationSpec 1 2 1 2 [] :=
  daily_rotation 1 2 1 2 [] (by decide) (by decide) (by decide)

theorem fetchGo_requests_le (responses : Nat → HttpOutcome) (n : Nat) :
    ∀ fuel attempt, (fetchGo responses n attempt fuel).requests ≤ fuel := by
  intro fuel
  induction fuel with
  | zero => intro attempt; simp [fetchGo]
  | succ m ih =>
      intro attempt
      unfold fetchGo
      cases h : responses attempt with
      | netError => simpa using Nat.succ_le_succ (ih (attempt + 1))
      | resp status body =>
          by_cases hs : status = 200
          · simp [hs]
          · simpa [hs] using Nat.succ_le_succ (ih (attempt + 1))

theorem fetchGo_exhaust (responses : Nat → HttpOutcome) (n : Nat) :
    ∀ fuel attempt, attempt + fuel = n →
      (∀ j, attempt ≤ j → j < n → is200 (responses j) = false) →
      fetchGo responses n attempt fuel = ⟨none, fuel, cntNE responses attempt (fuel - 1)⟩ := by
  intro fuel
  induction fuel with
  | zero => intro attempt _ _; simp [fetchGo, cntNE]
  | succ m ih =>
      intro attempt hn h200
      have hat : is200 (responses attempt) = false :=
        h200 attempt (Nat.le_refl _) (by omega)
      cases hr : responses attempt with
      | netError =>
          simp only [fetchGo, hr]
          rw [ih (attempt + 1) (by omega) (fun j hj hj' => h200 j (by omega) hj')]
          cases m with
          | zero =>
              have hno : ¬ attempt < n - 1 := by omega
              simp [cntNE, hno]
          | succ m' =>
              have hyes : attempt < n - 1 := by omega
              simp only [Nat.succ_sub_one, FetchResult.mk.injEq]
              simp [cntNE, hr, isNetError, hyes]
              omega
      | resp status body =>
          have hs : status ≠ 200 := by
            intro h
            rw [hr, h] at hat
            exact absurd hat (by simp [is200])
          simp only [fetchGo, hr, hs, if_false]
          rw [ih (attempt + 1) (by omega) (fun j hj hj' => h200 j (by omega) hj')]
          cases m with
          | zero => simp [cntNE]
          | succ m' =>
              simp only [Nat.succ_sub_one, FetchResult.mk.injEq]
              simp [cntNE, hr, isNetError]

theorem fetchGo_success (responses : Nat → HttpOutcome) (n k : Nat) (b : String) :
    ∀ fuel attempt, attempt + fuel = n → attempt ≤ k → k < n →
      (∀ j, attempt ≤ j → j < k → is200 (responses j) = false) →
      responses k = HttpOutcome.resp 200 b →
      fetchGo responses n attempt fuel =
        ⟨some b, k + 1 - attempt, cntNE responses attempt (k - attempt)⟩ := by
  intro fuel
  induction fuel with
  | zero => intro attempt hn hak hkn _ _; omega
  | succ m ih =>
      intro attempt hn hak hkn hpre h200
      by_cases heq : attempt = k
      · subst heq
        simp only [fetchGo, h200]
        simp [cntNE, Nat.sub_self]
      · have hlt : attempt < k := by omega
        have hat : is200 (responses attempt) = false :=
          hpre attempt (Nat.le_refl _) hlt
        have hka : k - attempt = (k - (attempt + 1)) + 1 := by omega
        cases hr : responses attempt with
        | netError =>
            simp only [fetchGo, hr]
            rw [ih (attempt + 1) (by omega) (by omega) hkn
              (fun j hj hj' => hpre j (by omega) hj') h200]
            have hsl : attempt < n - 1 := by omega
            rw [hka]
            simp only [FetchResult.mk.injEq]
            simp [cntNE, hr, isNetError, hsl]
            constructor
            · omega
            · omega
        | resp status body =>
            have hs : status ≠ 200 := by
              intro h
              rw [hr, h] at hat
              exact absurd hat (by simp [is200])
            simp only [fetchGo, hr, hs, if_false]
            rw [ih (attempt + 1) (by omega) (by omega) hkn
              (fun j hj hj' => hpre j (by omega) hj') h200]
            rw [hka]
            simp only [FetchResult.mk.injEq]
            simp [cntNE, hr, isNetError]
            omega

/-- C5 counterexample: with `retry_attempts = 3` and HTTP 500 on every
attempt, the code performs 3 requests but sleeps zero times — not once
between consecutive attempts as the claim states (`time.sleep(1)` sits in
the `except` branch only, so non-200 responses are retried without
sleeping). -/
theorem fetch_sleep_claim_counterexample :
    fetch_xml_data true c5all500 3 = ⟨none, 3, 0⟩ ∧
    (fetch_xml_data true c5all500 3).sleeps ≠
      (fetch_xml_data true c5all500 3).requests - 1 := by
  exact ⟨by decide, by decide⟩

/-- C5 (amended): see `FetchRetrySpec`. -/
theorem fetch_retry_amended (responses : Nat → HttpOutcome) (n : Nat) :
    FetchRetrySpec responses n := by
  refine ⟨?_, ?_, ?_⟩
  · simpa [fetch_xml_data] using fetchGo_requests_le responses n n 0
  · intro k b hk hpre h200
    have h := fetchGo_success responses n k b n 0 (by omega) (by omega) hk
      (fun j _ hj' => hpre j hj') h200
    simpa [fetch_xml_data] using h
  · intro hall
    have h := fetchGo_exhaust responses n n 0 (by omega) (fun j _ hj' => hall j hj')
    simpa [fetch_xml_data] using h

theorem fetch_retry_amended_witness :
    fetch_xml_data true c5resp 3 = ⟨some "xml", 3, 1⟩ :=
  (fetch_retry_amended c5resp 3).2.1 2 "xml" (by decide) (by decide) (by decide)

theorem foldlM_eq_none {α β : Type} (step : β → α → Option β) (x : α)
    (hx : ∀ acc, step acc x = none) :
    ∀ (xs : List α) (acc : β), x ∈ xs → xs.foldlM step acc = none := by
  intro xs
  induction xs with
  | nil => intro acc h; cases h
  | cons y t ih =>
      intro acc h
      rcases List.mem_cons.mp h with h | h
      · subst h
        simp [List.foldlM, hx acc]
      · cases hs : step acc y with
        | none => simp [List.foldlM, hs]
        | some acc' => simp [List.foldlM, hs, ih acc' h]

theorem processCumLog_eq_none (log : SmileLog) (hbad : badCumLog log = true) :
    ∀ acc, processCumLog acc log = none := by
  intro acc
  unfold badCumLog at hbad
  obtain ⟨t, ht⟩ := Option.isSome_iff_exists.mp (by
    simp only [Bool.and_eq_true] at hbad
    exact hbad.1.1)
  obtain ⟨u, hu⟩ := Option.isSome_iff_exists.mp (by
    simp only [Bool.and_eq_true] at hbad
    exact hbad.1.2)
  simp only [Bool.and_eq_true] at hbad
  have hper := hbad.2
  unfold processCumLog
  rw [ht, hu]
  cases hp : log.period with
  | none => rw [hp] at hper; simp at hper
  | some ms =>
      rw [hp] at hper
      simp only [List.any_eq_true] at hper
      obtain ⟨m, hm, hbm⟩ := hper
      refine foldlM_eq_none _ m ?_ ms acc hm
      intro a
      unfold badText at hbm
      cases hmt : m.text with
      | none => rw [hmt] at hbm; simp at hbm
      | some txt =>
          rw [hmt] at hbm
          simp only [Option.isNone_iff_eq_none] at hbm
          simp [hmt, hbm]

theorem processPowerCumLog_eq_none (log : SmileLog) (hbad : badCumLog log = true) :
    ∀ acc, processPowerCumLog acc log = none := by
  intro acc
  unfold badCumLog at hbad
  obtain ⟨t, ht⟩ := Option.isSome_iff_exists.mp (by
    simp only [Bool.and_eq_true] at hbad
    exact hbad.1.1)
  obtain ⟨u, hu⟩ := Option.isSome_iff_exists.mp (by
    simp only [Bool.and_eq_true] at hbad
    exact hbad.1.2)
  simp only [Bool.and_eq_true] at hbad
  have hper := hbad.2
  unfold processPowerCumLog
  rw [ht, hu]
  cases hp : log.period with
  | none => rw [hp] at hper; simp at hper
  | some ms =>
      rw [hp] at hper
      simp only [List.any_eq_true] at hper
      obtain ⟨m, hm, hbm⟩ := hper
      refine foldlM_eq_none _ m ?_ ms acc hm
      intro a
      unfold badText at hbm
      cases hmt : m.text with
      | none => rw [hmt] at hbm; simp at hbm
      | some txt =>
          rw [hmt] at hbm
          simp only [Option.isNone_iff_eq_none] at hbm
          simp [hmt, hbm]

/-- C6: for every Smile extraction, an absent home-location node or a
parse exception anywhere during extraction yields `None` for the cycle;
no partial meter data is returned. -/
theorem runPointLogs_match (acc : PPAcc) (log : SmileLog) (rest : List SmileLog)
    (ms : List Measurement)
    (ht : log.typeEl = some (some "electricity_consumed"))
    (hu : log.unitEl = some (some "W"))
    (hp : log.period = some ms) :
    runPointLogs acc (log :: rest) =
      match ms.foldlM processPointMeasurement acc with
      | none => none
      | some a => some (determineTariff a) := by
  unfold runPointLogs
  rw [if_pos ht, if_pos hu, hp]

theorem processPointMeasurement_bad (m : Measurement) (hbm : badText m = true) :
    ∀ acc, processPointMeasurement acc m = none := by
  intro acc
  unfold badText at hbm
  cases hmt : m.text with
  | none => rw [hmt] at hbm; simp at hbm
  | some txt =>
      rw [hmt] at hbm
      simp only [Option.isNone_iff_eq_none] at hbm
      simp [processPointMeasurement, hmt, hbm]

theorem runPointLogs_skip :
    ∀ (pre : List SmileLog), (∀ l ∈ pre, ¬ matchesPowerLog l ∨ l.period = none) →
      ∀ (acc : PPAcc) (rest : List SmileLog),
        runPointLogs acc (pre ++ rest) = runPointLogs acc rest := by
  intro pre
  induction pre with
  | nil => intro _ acc rest; rfl
  | cons l t ih =>
      intro hpre acc rest
      have hl := hpre l (List.mem_cons_self _ _)
      have hT : ∀ l' ∈ t, ¬ matchesPowerLog l' ∨ l'.period = none :=
        fun l' hl' => hpre l' (List.mem_cons_of_mem _ hl')
      rw [List.cons_append]
      have heq : runPointLogs acc (l :: (t ++ rest)) = runPointLogs acc (t ++ rest) := by
        conv_lhs => unfold runPointLogs
        by_cases h1 : l.typeEl = some (some "electricity_consumed")
        · by_cases h2 : l.unitEl = some (some "W")
          · have hper : l.period = none := by
              rcases hl with hnm | hper
              · exact absurd ⟨h1, h2⟩ hnm
              · exact hper
            rw [if_pos h1, if_pos h2, hper]
          · rw [if_pos h1, if_neg h2]
        · rw [if_neg h1]
      rw [heq]
      exact ih hT acc rest

theorem runPointLogs_raises (acc : PPAcc) (log : SmileLog) (rest : List SmileLog)
    (ms : List Measurement) (hm : matchesPowerLog log) (hp : log.period = some ms)
    (hbad : ∃ m ∈ ms, badText m = true) :
    runPointLogs acc (log :: rest) = none := by
  obtain ⟨m, hmem, hbm⟩ := hbad
  rw [runPointLogs_match acc log rest ms hm.1 hm.2 hp]
  rw [foldlM_eq_none processPointMeasurement m (processPointMeasurement_bad m hbm)
    ms acc hmem]

theorem smile_extraction_all_or_nothing (now : String) (doc : List Location) :
    SmileAllOrNothing now doc := by
  refine ⟨?_, ?_, ?_⟩
  · intro h
    unfold extract_smile_meter_data extract_smile_power
    rw [h]
    exact ⟨rfl, rfl⟩
  · intro loc hloc ⟨log, hmem, hbad⟩
    constructor
    · unfold extract_smile_meter_data
      rw [hloc]
      dsimp only
      rw [foldlM_eq_none processCumLog log (processCumLog_eq_none log hbad)
        loc.cumulativeLogs _ hmem]
    · unfold extract_smile_power
      rw [hloc]
      dsimp only
      cases hpp : runPointLogs {} loc.pointLogs with
      | none => rfl
      | some pp =>
          dsimp only
          rw [foldlM_eq_none processPowerCumLog log
            (processPowerCumLog_eq_none log hbad) loc.cumulativeLogs _ hmem]
  · intro loc hloc pre rest log ms hsplit hskip hm hp hbad
    unfold extract_smile_power
    rw [hloc]
    dsimp only
    rw [hsplit, runPointLogs_skip pre hskip, runPointLogs_raises _ log rest ms hm hp hbad]

theorem smile_extraction_all_or_nothing_witness :
    (extract_smile_meter_data "t" c6NoHomeDoc = none ∧
     extract_smile_power c6NoHomeDoc = none) ∧
    (extract_smile_meter_data "t" c6BadDoc = none ∧
     extract_smile_power c6BadDoc = none) ∧
    extract_smile_power c6BadPointDoc = none :=
  ⟨(smile_extraction_all_or_nothing "t" c6NoHomeDoc).1 (by decide),
   (smile_extraction_all_or_nothing "t" c6BadDoc).2.1
     ⟨homeLocationId, [],
      [⟨some (some "electricity_consumed"), some (some "kWh"),
        some [⟨some "abc", "", "nl_peak", some "d"⟩]⟩]⟩
     (by decide)
     ⟨⟨some (some "electricity_consumed"), some (some "kWh"),
       some [⟨some "abc", "", "nl_peak", some "d"⟩]⟩, by decide, by decide⟩,
   (smile_extraction_all_or_nothing "t" c6BadPointDoc).2.2
     ⟨homeLocationId,
      [⟨some (some "electricity_consumed"), some (some "W"), none⟩,
       ⟨some (some "electricity_consumed"), some (some "W"),
        some [⟨some "x1", "", "nl_peak", none⟩]⟩],
      [⟨some (some "electricity_consumed"), some (some "kWh"),
        some [⟨some "100", "", "nl_peak", some "d"⟩]⟩]⟩
     (by decide)
     [⟨some (some "electricity_consumed"), some (some "W"), none⟩] []
     ⟨some (some "electricity_consumed"), some (some "W"),
      some [⟨some "x1", "", "nl_peak", none⟩]⟩
     [⟨some "x1", "", "nl_peak", none⟩]
     rfl (by decide) (by decide) rfl (by decide)⟩

theorem services_foldl_eq (nm aid : String) (ss : List Service) :
    ∀ m : List (String × ApplianceInfo),
      ss.foldl
          (fun m s =>
            if s.tag = "electricity_point_meter" then
              dictInsert s.id ⟨nm, aid, s.tag⟩ m
            else m) m =
        (applianceEntries nm aid ss).foldl (fun m e => dictInsert e.1 e.2 m) m := by
  induction ss with
  | nil => intro m; rfl
  | cons s t ih =>
      intro m
      by_cases h : s.tag = "electricity_point_meter"
      · rw [List.foldl_cons, if_pos h]
        unfold applianceEntries
        rw [if_pos h, List.foldl_cons]
        exact ih _
      · rw [List.foldl_cons, if_neg h]
        unfold applianceEntries
        rw [if_neg h]
        exact ih _

theorem build_appliance_mapping_go (doc : List Appliance) :
    ∀ m : List (String × ApplianceInfo),
      doc.foldl
          (fun m a =>
            a.services.foldl
              (fun m s =>
                if s.tag = "electricity_point_meter" then
                  dictInsert s.id ⟨applianceName a.name, a.id, s.tag⟩ m
                else m) m) m =
        (allEntries doc).foldl (fun m e => dictInsert e.1 e.2 m) m := by
  induction doc with
  | nil => intro m; rfl
  | cons a t ih =>
      intro m
      rw [List.foldl_cons]
      unfold allEntries
      rw [List.foldl_append]
      rw [services_foldl_eq]
      exact ih _

theorem build_appliance_mapping_eq (doc : List Appliance) :
    build_appliance_mapping doc =
      (allEntries doc).foldl (fun m e => dictInsert e.1 e.2 m) [] :=
  build_appliance_mapping_go doc []

theorem dictInsert_fresh {α : Type} (k : String) (v : α)
    (d : List (String × α)) (h : k ∉ d.map Prod.fst) :
    dictInsert k v d = d ++ [(k, v)] := by
  induction d with
  | nil => rfl
  | cons e t ih =>
      simp only [List.map_cons, List.mem_cons] at h
      push_neg at h
      simp only [dictInsert, Ne.symm h.1, if_false]
      rw [ih h.2]
      rfl

theorem foldl_insert_fresh {α : Type} (es : List (String × α)) :
    ∀ m : List (String × α),
      (m.map Prod.fst ++ es.map Prod.fst).Nodup →
      es.foldl (fun m e => dictInsert e.1 e.2 m) m = m ++ es := by
  induction es with
  | nil => intro m _; simp
  | cons e t ih =>
      intro m h
      have hfresh : e.1 ∉ m.map Prod.fst := by
        rw [List.map_cons, List.nodup_append] at h
        intro hc
        exact h.2.2 hc (by simp)
      rw [List.foldl_cons, dictInsert_fresh e.1 e.2 m hfresh]
      have h' : ((m ++ [e]).map Prod.fst ++ t.map Prod.fst).Nodup := by
        rw [List.map_append]
        simpa [List.append_assoc] using h
      rw [ih (m ++ [e]) h']
      simp

theorem applianceEntries_length (nm aid : String) (ss : List Service) :
    (applianceEntries nm aid ss).length =
      (ss.filter (fun s => s.tag = "electricity_point_meter")).length := by
  induction ss with
  | nil => rfl
  | cons s t ih =>
      by_cases h : s.tag = "electricity_point_meter"
      · unfold applianceEntries
        rw [if_pos h]
        simp [List.filter_cons, h, ih]
      · unfold applianceEntries
        rw [if_neg h]
        simp [List.filter_cons, h, ih]

theorem allEntries_length (doc : List Appliance)
    (hone : ∀ a ∈ doc, (epmFilter a).length = 1) :
    (allEntries doc).length = doc.length := by
  induction doc with
  | nil => rfl
  | cons a t ih =>
      unfold allEntries
      rw [List.length_append, applianceEntries_length]
      have h1 : (epmFilter a).length = 1 := hone a (by simp)
      unfold epmFilter at h1
      rw [h1, ih (fun a' ha' => hone a' (by simp [ha']))]
      simp [Nat.add_comm]

theorem allEntries_append (l1 l2 : List Appliance) :
    allEntries (l1 ++ l2) = allEntries l1 ++ allEntries l2 := by
  induction l1 with
  | nil => rfl
  | cons a t ih =>
      simp only [List.cons_append, allEntries, List.append_eq, ih, List.append_assoc]

/-- C9: an appliance registry with `N` appliances, each exposing exactly
one `electricity_point_meter` service with a distinct service id, yields
exactly `N` mapping entries; an appliance with zero point-meter services
contributes zero entries. -/
theorem build_appliance_mapping_count (doc : List Appliance)
    (hnodup : ((allEntries doc).map Prod.fst).Nodup)
    (hone : ∀ a ∈ doc, (epmFilter a).length = 1) :
    ApplianceMappingSpec doc := by
  constructor
  · rw [build_appliance_mapping_eq]
    rw [foldl_insert_fresh (allEntries doc) [] (by simpa using hnodup)]
    simpa using allEntries_length doc hone
  · intro a ha
    rw [build_appliance_mapping_eq, build_appliance_mapping_eq]
    have hlen : (applianceEntries (applianceName a.name) a.id a.services).length = 0 := by
      rw [applianceEntries_length]
      unfold epmFilter at ha
      rw [ha]
      rfl
    have hnil : applianceEntries (applianceName a.name) a.id a.services = [] :=
      List.length_eq_zero.mp hlen
    rw [allEntries_append]
    simp [allEntries, hnil]

theorem build_appliance_mapping_count_witness : ApplianceMappingSpec c9Doc :=
  build_appliance_mapping_count c9Doc (by decide) (by decide)

theorem runPointLogs_append_unmatched :
    ∀ (pre : List SmileLog), (∀ l ∈ pre, ¬ matchesPowerLog l) →
      ∀ (acc : PPAcc) (rest : List SmileLog),
        runPointLogs acc (pre ++ rest) = runPointLogs acc rest := by
  intro pre
  induction pre with
  | nil => intro _ acc rest; rfl
  | cons l t ih =>
      intro hpre acc rest
      have hl := hpre l (List.mem_cons_self _ _)
      have hT : ∀ l' ∈ t, ¬ matchesPowerLog l' :=
        fun l' hl' => hpre l' (List.mem_cons_of_mem _ hl')
      rw [List.cons_append]
      have heq : runPointLogs acc (l :: (t ++ rest)) = runPointLogs acc (t ++ rest) := by
        conv_lhs => unfold runPointLogs
        by_cases h1 : l.typeEl = some (some "electricity_consumed")
        · have h2 : ¬ l.unitEl = some (some "W") := fun h2 => hl ⟨h1, h2⟩
          rw [if_pos h1, if_neg h2]
        · rw [if_neg h1]
      rw [heq]
      exact ih hT acc rest

theorem determineTariff_fields (a : PPAcc) :
    (determineTariff a).current_power = a.current_power ∧
    (determineTariff a).peak_power = a.peak_power ∧
    (determineTariff a).offpeak_power = a.offpeak_power ∧
    (determineTariff a).current_timestamp = a.current_timestamp ∧
    (determineTariff a).active_tariff =
      some (if a.peak_power > 0 ∧ a.offpeak_power = 0 then "peak"
            else if a.offpeak_power > 0 ∧ a.peak_power = 0 then "off-peak"
            else if a.peak_power > 0 ∧ a.offpeak_power > 0 then "both"
            else "none") := by
  unfold determineTariff
  split_ifs <;> simp_all

theorem ppFold_current (ms : List Measurement) :
    ∀ a b : PPAcc, ms.foldlM processPointMeasurement a = some b →
      b.current_power = a.current_power + measurementSum ms := by
  induction ms with
  | nil =>
      intro a b h
      simp only [List.foldlM_nil, pure, Option.some.injEq] at h
      subst h
      simp [measurementSum]
  | cons m t ih =>
      intro a b h
      rw [List.foldlM_cons] at h
      cases hstep : processPointMeasurement a m with
      | none => rw [hstep] at h; simp at h
      | some a1 =>
          rw [hstep] at h
          simp only [Option.bind_eq_bind, Option.some_bind] at h
          have hb := ih a1 b h
          have ha1 : a1.current_power = a.current_power + msValue m := by
            cases hmt : m.text with
            | none =>
                simp only [processPointMeasurement, hmt, Option.some.injEq] at hstep
                subst hstep
                simp [msValue, hmt]
            | some txt =>
                cases hv : pyFloat? txt with
                | none =>
                    simp only [processPointMeasurement, hmt, hv] at hstep
                    exact absurd hstep (by simp)
                | some v =>
                    simp only [processPointMeasurement, hmt, hv, Option.some.injEq] at hstep
                    subst hstep
                    simp only [msValue, hmt, hv, Option.getD_some]
                    split_ifs <;> rfl
          rw [hb, ha1, measurementSum]
          rw [add_assoc]

/-- C7 (amended): see `SmilePowerFirstLogSpec`. -/
theorem smile_power_first_log_amended (doc : List Location) (loc : Location)
    (pre rest : List SmileLog) (log : SmileLog) (ms : List Measurement)
    (acc : PPAcc) (pm : PMAcc)
    (hloc : findHomeLocation doc = some loc)
    (hsplit : loc.pointLogs = pre ++ log :: rest)
    (hpre : ∀ l ∈ pre, ¬ matchesPowerLog l)
    (ht : log.typeEl = some (some "electricity_consumed"))
    (hu : log.unitEl = some (some "W"))
    (hp : log.period = some ms)
    (hfold : ms.foldlM processPointMeasurement {} = some acc)
    (hcum : loc.cumulativeLogs.foldlM processPowerCumLog {} = some pm) :
    SmilePowerFirstLogSpec doc loc pre log ms acc := by
  have hrun : runPointLogs {} loc.pointLogs = some (determineTariff acc) := by
    rw [hsplit, runPointLogs_append_unmatched pre hpre,
      runPointLogs_match _ log rest ms ht hu hp, hfold]
  have e : extract_smile_power doc =
      some ⟨⟨(determineTariff acc).current_power, (determineTariff acc).peak_power,
             (determineTariff acc).offpeak_power, (determineTariff acc).active_tariff,
             (determineTariff acc).current_timestamp⟩,
            ⟨pm.usage_high, pm.usage_low, pm.production_high, pm.production_low,
             pm.gas, netConsumption pm⟩⟩ := by
    unfold extract_smile_power
    rw [hloc]
    dsimp only
    rw [hrun]
    dsimp only
    rw [hcum]
  obtain ⟨f1, f2, f3, _f4, f5⟩ := determineTariff_fields acc
  have hsum : (determineTariff acc).current_power = measurementSum ms := by
    rw [f1, ppFold_current ms {} acc hfold]
    simp
  refine ⟨?_, ?_, ?_, ?_, ?_⟩
  · rw [e]; simp [hsum]
  · rw [e]; simp [f2]
  · rw [e]; simp [f3]
  · rw [e]; simp [f5]
  · rw [hrun, runPointLogs_append_unmatched pre hpre,
      runPointLogs_match _ log [] ms ht hu hp, hfold]

/-- C7 counterexample: in `c7Doc` only the peak component is positive
(peak = 3, offpeak = −5), so the claim derives `active_tariff = 'peak'`;
the code, whose first condition demands `offpeak_power == 0` exactly,
derives `'none'`. -/
theorem smile_active_tariff_counterexample :
    (extract_smile_power c7Doc).map (fun r => r.current_power.peak_watts) =
      some c7Acc.peak_power ∧
    (extract_smile_power c7Doc).map (fun r => r.current_power.offpeak_watts) =
      some c7Acc.offpeak_power ∧
    c7Acc.peak_power > 0 ∧
    ¬ (c7Acc.offpeak_power > 0) ∧
    (extract_smile_power c7Doc).map (fun r => r.current_power.active_tariff) =
      some (some "none") ∧
    (extract_smile_power c7Doc).map (fun r => r.current_power.active_tariff) ≠
      some (some "peak") := by
  have hpk : c7Acc.peak_power = 3 := by
    have h0 : c7Acc.peak_power = 1 * ((3 : ℕ) : ℚ) := rfl
    rw [h0]
    norm_num
  have hoff : c7Acc.offpeak_power = -1 * ((5 : ℕ) : ℚ) := rfl
  have hoff5 : c7Acc.offpeak_power = -5 := by rw [hoff]; norm_num
  have hfold : ([⟨some "3", "", "nl_peak", some "ld"⟩,
     ⟨some "-5", "", "nl_offpeak", none⟩] : List Measurement).foldlM
      processPointMeasurement {} = some c7Acc :=
    opt_eq_some_getD _ _ (by decide)
  have hrun : runPointLogs {} [c7Log] = some (determineTariff c7Acc) := by
    rw [runPointLogs_match _ c7Log [] _ (by decide) (by decide) rfl, hfold]
  have e : extract_smile_power c7Doc =
      some ⟨⟨(determineTariff c7Acc).current_power, (determineTariff c7Acc).peak_power,
             (determineTariff c7Acc).offpeak_power, (determineTariff c7Acc).active_tariff,
             (determineTariff c7Acc).current_timestamp⟩,
            ⟨none, none, none, none, none, netConsumption {}⟩⟩ := by
    unfold extract_smile_power
    rw [show findHomeLocation c7Doc = some ⟨homeLocationId, [c7Log], []⟩ from by decide]
    dsimp only
    rw [hrun]
    rfl
  obtain ⟨_f1, f2, f3, _f4, f5⟩ := determineTariff_fields c7Acc
  have htar : (determineTariff c7Acc).active_tariff = some "none" := by
    rw [f5, hpk, hoff5]
    norm_num
  refine ⟨?_, ?_, ?_, ?_, ?_, ?_⟩
  · rw [e]; simp [f2]
  · rw [e]; simp [f3]
  · rw [hpk]; norm_num
  · rw [hoff5]; norm_num
  · rw [e]; simp [htar]
  · rw [e]; simp [htar]

theorem smile_power_first_log_amended_witness :
    SmilePowerFirstLogSpec [c7wLoc] c7wLoc c7wPre c7wLog c7wMs c7wAcc :=
  smile_power_first_log_amended [c7wLoc] c7wLoc c7wPre c7wRest c7wLog c7wMs
    c7wAcc {} (by decide) rfl (by decide) (by decide) (by decide) rfl
    (opt_eq_some_getD _ _ (by decide)) rfl

/-! ## C8: once-per-day meter gate -/

theorem meter_phase_spec (inp : CycleInputs) (st : RunState) (fs : FS) :
    (meter_phase inp st fs).2.2 =
      (st.collect_meter_data &&
        decide (st.last_meter_collection_date ≠ some inp.today)) ∧
    (meter_phase inp st fs).1.last_meter_collection_date =
      (if st.collect_meter_data &&
          decide (st.last_meter_collection_date ≠ some inp.today)
       then some inp.today else st.last_meter_collection_date) ∧
    (meter_phase inp st fs).1.collect_meter_data = st.collect_meter_data := by
  unfold meter_phase should_collect_meter_data_today
  by_cases hc : st.collect_meter_data
  · by_cases hl : st.last_meter_collection_date ≠ some inp.today
    · simp only [hc, if_true, hl, if_pos hl]
      split <;> simp [hl]
    · simp only [hc, if_true, if_neg hl]
      simp [hl]
  · simp only [Bool.not_eq_true] at hc
    simp [hc]

theorem power_write_step_fields (inp : CycleInputs) (st : RunState) (fs : FS) :
    (power_write_step inp st fs).1.last_meter_collection_date =
        st.last_meter_collection_date ∧
    (power_write_step inp st fs).1.collect_meter_data = st.collect_meter_data :=
  ⟨rfl, rfl⟩

theorem finalize_step_last (inp : CycleInputs) (b : Bool) (st : RunState) (fs : FS) :
    (finalize_step inp b st fs).1.last_meter_collection_date =
      st.last_meter_collection_date := by
  unfold finalize_step
  split <;> rfl

theorem run_attempted_imp (inp : CycleInputs) (st : RunState) (fs : FS) (b : Bool) :
    (run_single_collection inp st fs b).meterAttempted = true →
      st.collect_meter_data = true ∧
      st.last_meter_collection_date ≠ some inp.today ∧
      (run_single_collection inp st fs b).st.last_meter_collection_date =
        some inp.today := by
  unfold run_single_collection
  by_cases hdev : (stretchDevice? (cycleMapping inp st) inp.modulesDoc).isSome = true ∨
      (smileDevice? inp.smileDoc).isSome = true
  · rw [if_pos hdev]
    dsimp only
    intro hatt
    obtain ⟨hA, hB, _hC⟩ := meter_phase_spec inp (power_write_step inp st fs).1
      (power_write_step inp st fs).2
    obtain ⟨hpl, hpc⟩ := power_write_step_fields inp st fs
    rw [hA, hpl, hpc] at hatt
    simp only [Bool.and_eq_true, decide_eq_true_eq] at hatt
    refine ⟨hatt.1, hatt.2, ?_⟩
    rw [finalize_step_last]
    rw [hB, hpl, hpc]
    simp [hatt.1, hatt.2]
  · rw [if_neg hdev]
    intro hatt
    exact absurd hatt (by simp)

theorem run_same_day_no_attempt (inp : CycleInputs) (st : RunState) (fs : FS)
    (b : Bool) (hl : st.last_meter_collection_date = some inp.today) :
    (run_single_collection inp st fs b).meterAttempted = false := by
  unfold run_single_collection
  by_cases hdev : (stretchDevice? (cycleMapping inp st) inp.modulesDoc).isSome = true ∨
      (smileDevice? inp.smileDoc).isSome = true
  · rw [if_pos hdev]
    dsimp only
    obtain ⟨hA, _hB, _hC⟩ := meter_phase_spec inp (power_write_step inp st fs).1
      (power_write_step inp st fs).2
    obtain ⟨hpl, hpc⟩ := power_write_step_fields inp st fs
    rw [hA, hpl, hpc]
    simp [hl]
  · rw [if_neg hdev]

/-- C8 (amended): see `MeterGateSpec`. -/
theorem meter_gate_amended (inp : CycleInputs) (st : RunState) (fs : FS)
    (b : Bool) : MeterGateSpec inp st fs b :=
  ⟨run_attempted_imp inp st fs b,
   run_same_day_no_attempt inp st fs b,
   fun h inp2 fs2 b2 hd =>
     run_same_day_no_attempt inp2 _ fs2 b2
       (by rw [hd]; exact (run_attempted_imp inp st fs b h).2.2)⟩

/-- C8 counterexample: cycle 1 attempts meter collection, the collection
fails (Smile fetch exhausted), yet the last-collection date is recorded —
contrary to the claim that it is updated on successful collection — and
the same-day cycle 2, which could have collected successfully, no longer
attempts: the unsuccessful attempt consumed the day's slot and no meter
row is ever written. -/
theorem meter_gate_claim_counterexample :
    c8R1.meterAttempted = true ∧
    dictGet? (session_filename 5) c8R1.fs = none ∧
    c8R1.st.last_meter_collection_date = some 5 ∧
    c8R2.meterAttempted = false ∧
    dictGet? (session_filename 5) c8R2.fs = none := by
  refine ⟨by decide, by decide, by decide, by decide, by decide⟩

theorem meter_gate_amended_witness :
    (run_single_collection c8Inp2 ⟨c8Map, some 5, true, ⟨none, none⟩, ⟨none, false⟩⟩
      [] false).meterAttempted = false :=
  (meter_gate_amended c8Inp2 ⟨c8Map, some 5, true, ⟨none, none⟩, ⟨none, false⟩⟩
    [] false).2.1 rfl

/-! ## C10: empty power extraction aborts the cycle -/

/-- C10: when power extraction yields no device data at all, the cycle
returns `None`, writes nothing, attempts no meter collection, and leaves
the last meter-collection date as it was (only the appliance-mapping
cache may have been refreshed). -/
theorem no_power_data_no_effects (inp : CycleInputs) (st : RunState) (fs : FS)
    (b : Bool)
    (hs : stretchDevice? (cycleMapping inp st) inp.modulesDoc = none)
    (hm : smileDevice? inp.smileDoc = none) :
    run_single_collection inp st fs b =
      ⟨{ st with appliance_mapping := cycleMapping inp st }, fs, false, false⟩ := by
  unfold run_single_collection
  rw [hs, hm]
  simp

theorem no_power_data_no_effects_witness :
    run_single_collection c10Inp c10St [] true = ⟨c10St, [], false, false⟩ :=
  no_power_data_no_effects c10Inp c10St [] true (by decide) (by decide)

end Plugwise
